import Mathlib

/-!
Shallow embedding of the recommendation engine of
`src/services/recommendationEngine.js` (class `RecommendationEngine`),
together with the routes' data shapes it consumes.

Modelling conventions:
- JavaScript numbers are embedded as exact rationals (`ℚ`); engagement
  counters are `Option ℕ` (absent field ↦ `none`, `x || 0` ↦ `Option.getD 0`).
- Timestamps (`Date.now()`, `created_at`) are milliseconds as `ℚ`;
  `Math.random()` is an explicit `rand : ℚ` input (one draw per scored item,
  fed by a stream `rands : ℕ → ℚ`).
- A `user_preferences` document stores `interests`/`skills` as weight maps
  (tag → accumulated weight), exactly the shape
  `updatePreferencesFromEngagement` writes; a `user_profiles` document stores
  them as string arrays.  The scorer reads that field with
  `userProfile?.interests || userPreferences?.interests || []` and then
  applies the array methods `.length`/`.filter`/`.some`; calling `.some` on a
  plain object raises a `TypeError`, which the embedding reflects by letting
  the scorer return `Except Unit _` (`.error ()` = a thrown exception).
- The store (MongoDB) is a record of collections plus one failure flag per
  access path; a failing access returns `.error ()`, matching a rejected
  promise, and `try/catch` blocks are `match`es on the `Except`.
- `{...item, score: undefined}` is modelled as `score := none`: a JS property
  set to `undefined` is dropped by JSON serialization, which is the
  observable shape of every returned object.
- JavaScript's `Array.prototype.sort` with comparator `(a,b) => b.score -
  a.score` is a stable descending sort by `score`; it is modelled by a stable
  insertion sort `sortDesc`, which yields the same list for a consistent
  comparator.
-/

namespace GlowUp

/-! ### String helpers (JS `toLowerCase` and `includes`) -/

/-- `s.toLowerCase()` as a list of characters. -/
def lowerChars (s : String) : List Char := s.data.map Char.toLower

/-- `needle` occurs at the head of `hay` (helper for substring search). -/
def startsWith : List Char → List Char → Bool
  | [], _ => true
  | _ :: _, [] => false
  | a :: as, b :: bs => a == b && startsWith as bs

/-- JS `hay.includes(needle)` on character lists. -/
def jsIncludes (hay needle : List Char) : Bool :=
  (List.range (hay.length + 1)).any fun i => startsWith needle (hay.drop i)

/-! ### Data model -/

/-- `location_data` subdocument: `country`, `province`, `city`, each
optional; an absent or empty string is falsy in the JS guards. -/
structure LocationData where
  country : Option String := none
  province : Option String := none
  city : Option String := none
deriving DecidableEq, Repr

/-- A `user_profiles` document: onboarding data, interests/skills as
string arrays. -/
structure UserProfile where
  interests : Option (List String) := none
  skills : Option (List String) := none
  location_data : Option LocationData := none
deriving DecidableEq, Repr

/-- A tag→weight map as written by the preference learner (a plain JS
object, embedded as an association list in insertion order). -/
abbrev WeightMap := List (String × ℚ)

/-- A `user_preferences` document: behaviour-derived weight maps. -/
structure UserPreferences where
  interests : Option WeightMap := none
  skills : Option WeightMap := none
  location_data : Option LocationData := none
  updated_at : Option ℚ := none
deriving DecidableEq, Repr

/-- A content item (opportunity, event, job or resource).  The JS `type`
field is named `ctype` (`type` is a Lean keyword). -/
structure Item where
  id : String := ""
  ctype : String := ""
  status : String := ""
  tags : Option (List String) := none
  requirements : Option (List String) := none
  location : Option String := none
  likes_count : Option ℕ := none
  saves_count : Option ℕ := none
  views : Option ℕ := none
  created_at : ℚ := 0
deriving DecidableEq, Repr

/-- The six sub-scores of `calculateScore`. -/
structure ScoreBreakdown where
  interestMatch : ℚ
  skillMatch : ℚ
  locationMatch : ℚ
  popularity : ℚ
  recency : ℚ
  explore : ℚ
deriving DecidableEq, Repr

/-- `{...item, score, scoreBreakdown}` as returned by `calculateScore`. -/
structure ScoredItem where
  item : Item
  score : ℚ
  scoreBreakdown : ScoreBreakdown
deriving DecidableEq, Repr

/-- An object returned to the caller of `getRecommendations` /
`getColdStartRecommendations`: `score: undefined` ↦ `none`; the
`scoreBreakdown` property is present (`some`) or absent (`none`). -/
structure OutItem where
  item : Item
  score : Option ℚ := none
  scoreBreakdown : Option ScoreBreakdown := none
deriving DecidableEq, Repr

/-- `item_snapshot` carried by an engagement event. -/
structure ItemSnapshot where
  tags : Option (List String) := none
  requirements : Option (List String) := none
deriving DecidableEq, Repr

/-- The MongoDB database visible to the engine, plus one failure flag per
access path (a set flag makes that query/update reject). -/
structure DB where
  user_profiles : List (String × UserProfile) := []
  user_preferences : List (String × UserPreferences) := []
  opportunities : List Item := []
  events : List Item := []
  jobs : List Item := []
  resources : List Item := []
  profilesFail : Bool := false
  prefsFail : Bool := false
  contentFail : Bool := false
  updateFail : Bool := false

/-! ### Stable descending sort (model of JS `sort((a,b) => b.score - a.score)`) -/

/-- Stable insert for a descending sort: keep skipping while the resident
key is strictly larger, so earlier elements win ties. -/
def insertDesc {α : Type} (key : α → ℚ) (x : α) : List α → List α
  | [] => [x]
  | y :: ys => if key x < key y then y :: insertDesc key x ys else x :: y :: ys

/-- Stable descending sort by `key`. -/
def sortDesc {α : Type} (key : α → ℚ) : List α → List α
  | [] => []
  | x :: xs => insertDesc key x (sortDesc key xs)

/-! ### The Scorer -/

/-- `this.decayRate = 0.1`. -/
def decayRate : ℚ := 0.1

/-- What `userProfile?.f || userPreferences?.f || []` evaluates to when the
profile stores arrays and the preferences store weight maps: either a string
array or a weight-map object. -/
inductive StrSource
  | arr (l : List String)
  | wmap (m : WeightMap)
deriving DecidableEq, Repr

/-- `userProfile?.interests || userPreferences?.interests || []` (both an
empty array and an empty object are truthy in JS). -/
def interestsSource (p : Option UserProfile) (q : Option UserPreferences) : StrSource :=
  match p.bind (·.interests) with
  | some l => .arr l
  | none =>
    match q.bind (·.interests) with
    | some m => .wmap m
    | none => .arr []

/-- `userProfile?.skills || userPreferences?.skills || []`. -/
def skillsSource (p : Option UserProfile) (q : Option UserPreferences) : StrSource :=
  match p.bind (·.skills) with
  | some l => .arr l
  | none =>
    match q.bind (·.skills) with
    | some m => .wmap m
    | none => .arr []

/-- The tag/interest match predicate used by `calculateInterestMatch`:
either lowered string contains the other. -/
def tagMatches (interest tag : String) : Bool :=
  jsIncludes (lowerChars interest) (lowerChars tag) ||
  jsIncludes (lowerChars tag) (lowerChars interest)

/-- `calculateInterestMatch(item, userProfile, userPreferences)`.  On a
weight-map source the guard `userInterests.length === 0` compares
`undefined === 0` (false), so with non-empty tags the code reaches
`userInterests.some`, which raises a `TypeError` (`.error ()`). -/
def calculateInterestMatch (item : Item) (p : Option UserProfile)
    (q : Option UserPreferences) : Except Unit ℚ :=
  let itemTags := item.tags.getD []
  match interestsSource p q with
  | .arr userInterests =>
    if userInterests.length = 0 ∨ itemTags.length = 0 then .ok 0
    else
      let matchedInterests := itemTags.filter fun tag =>
        userInterests.any fun interest => tagMatches interest tag
      .ok ((matchedInterests.length : ℚ) / (userInterests.length : ℚ) * 100)
  | .wmap _ =>
    if itemTags.length = 0 then .ok 0 else .error ()

/-- `calculateSkillMatch(item, userProfile, userPreferences)`: same shape,
but the denominator is the requirements count. -/
def calculateSkillMatch (item : Item) (p : Option UserProfile)
    (q : Option UserPreferences) : Except Unit ℚ :=
  let itemRequirements := item.requirements.getD []
  match skillsSource p q with
  | .arr userSkills =>
    if userSkills.length = 0 ∨ itemRequirements.length = 0 then .ok 0
    else
      let matchedSkills := itemRequirements.filter fun req =>
        userSkills.any fun skill => tagMatches skill req
      .ok ((matchedSkills.length : ℚ) / (itemRequirements.length : ℚ) * 100)
  | .wmap _ =>
    if itemRequirements.length = 0 then .ok 0 else .error ()

/-- JS truthiness of an optional string (`undefined` and `""` are falsy). -/
def truthyStr : Option String → Bool
  | none => false
  | some s => !(s == "")

/-- `userProfile?.location_data || userPreferences?.location_data || {}`. -/
def locationSource (p : Option UserProfile) (q : Option UserPreferences) : LocationData :=
  match p.bind (·.location_data) with
  | some ld => ld
  | none => (q.bind (·.location_data)).getD {}

/-- `calculateLocationMatch(item, userProfile, userPreferences)`. -/
def calculateLocationMatch (item : Item) (p : Option UserProfile)
    (q : Option UserPreferences) : ℚ :=
  let userLocation := locationSource p q
  let itemLocation := lowerChars (item.location.getD "")
  if !truthyStr userLocation.country && !truthyStr userLocation.province &&
      !truthyStr userLocation.city then 50
  else if jsIncludes itemLocation "remote".data ||
      jsIncludes itemLocation "virtual".data ||
      jsIncludes itemLocation "online".data then 100
  else if truthyStr userLocation.city &&
      jsIncludes itemLocation (lowerChars (userLocation.city.getD "")) then 100
  else if truthyStr userLocation.province &&
      jsIncludes itemLocation (lowerChars (userLocation.province.getD "")) then 80
  else if truthyStr userLocation.country &&
      jsIncludes itemLocation (lowerChars (userLocation.country.getD "")) then 60
  else 20

/-- `(Date.now() - new Date(item.created_at).getTime()) / (1000*60*60*24)`. -/
def ageInDays (now : ℚ) (item : Item) : ℚ :=
  (now - item.created_at) / (1000 * 60 * 60 * 24)

/-- `calculateDecayedPopularity(item)` at clock value `now`. -/
def calculateDecayedPopularity (now : ℚ) (item : Item) : ℚ :=
  let likes : ℚ := item.likes_count.getD 0
  let saves : ℚ := item.saves_count.getD 0
  let views : ℚ := item.views.getD 0
  let popularity := likes + saves + views
  let decayedPopularity := popularity / (1 + ageInDays now item * decayRate)
  min (decayedPopularity / 10) 100

/-- `calculateRecency(item)` at clock value `now`. -/
def calculateRecency (now : ℚ) (item : Item) : ℚ :=
  let a := ageInDays now item
  if a ≤ 1 then 100
  else if a ≤ 7 then 80
  else if a ≤ 30 then 60
  else if a ≤ 90 then 40
  else 20

/-- `calculateExploreFactor(item)`: `Math.random() * 100`, with the random
draw made explicit. -/
def calculateExploreFactor (rand : ℚ) : ℚ := rand * 100

/-- `calculateScore(item, userProfile, userPreferences)` at clock `now`
with random draw `rand`. -/
def calculateScore (now rand : ℚ) (item : Item) (p : Option UserProfile)
    (q : Option UserPreferences) : Except Unit ScoredItem := do
  let personal ←
    if p.isSome || q.isSome then do
      let im ← calculateInterestMatch item p q
      let sm ← calculateSkillMatch item p q
      pure (im, sm, calculateLocationMatch item p q)
    else pure ((0 : ℚ), (0 : ℚ), (0 : ℚ))
  let scores : ScoreBreakdown :=
    { interestMatch := personal.1
      skillMatch := personal.2.1
      locationMatch := personal.2.2
      popularity := calculateDecayedPopularity now item
      recency := calculateRecency now item
      explore := calculateExploreFactor rand }
  let totalScore :=
    scores.interestMatch * 0.4 + scores.skillMatch * 0.25 +
    scores.locationMatch * 0.05 + scores.popularity * 0.15 +
    scores.recency * 0.1 + scores.explore * 0.05
  pure { item := item, score := totalScore, scoreBreakdown := scores }

/-! ### Store access -/

/-- `db.collection('user_profiles').findOne({user_id})`. -/
def findProfile (db : DB) (userId : String) : Except Unit (Option UserProfile) :=
  if db.profilesFail then .error ()
  else .ok ((db.user_profiles.find? (·.1 == userId)).map (·.2))

/-- The preferences document stored for `userId` (the data a successful
`findOne` on `user_preferences` returns). -/
def prefsOf (db : DB) (userId : String) : Option UserPreferences :=
  (db.user_preferences.find? (·.1 == userId)).map (·.2)

/-- `db.collection('user_preferences').findOne({user_id})`. -/
def findPreferences (db : DB) (userId : String) : Except Unit (Option UserPreferences) :=
  if db.prefsFail then .error () else .ok (prefsOf db userId)

/-- One collection's contribution to `getActiveContent`: filter to
`status: 'active'` and annotate each item with its `type`. -/
def activeOf (l : List Item) (t : String) : List Item :=
  (l.filter (·.status == "active")).map fun it => { it with ctype := t }

/-- `getActiveContent(contentType)`. -/
def getActiveContent (db : DB) (contentType : String) : Except Unit (List Item) :=
  if db.contentFail then .error ()
  else .ok (
    (if contentType == "all" || contentType == "opportunity" then
      activeOf db.opportunities "opportunity" else []) ++
    (if contentType == "all" || contentType == "event" then
      activeOf db.events "event" else []) ++
    (if contentType == "all" || contentType == "job" then
      activeOf db.jobs "job" else []) ++
    (if contentType == "all" || contentType == "resource" then
      activeOf db.resources "resource" else []))

/-! ### Cold-Start Selector and Ranker -/

/-- `(item.likes_count || 0) + (item.saves_count || 0) + (item.views || 0)`. -/
def popTotal (it : Item) : ℕ :=
  it.likes_count.getD 0 + it.saves_count.getD 0 + it.views.getD 0

/-- `getColdStartRecommendations(contentType, limit)` (not itself wrapped in
`try/catch`; a content-store failure propagates to the caller). -/
def getColdStartRecommendations (db : DB) (contentType : String) (limit : ℕ) :
    Except Unit (List OutItem) := do
  let content ← getActiveContent db contentType
  let scored := content.map fun it => (it, (popTotal it : ℚ))
  pure (((sortDesc (·.2) scored).take limit).map fun s =>
    { item := s.1, score := none, scoreBreakdown := none })

/-- `content.map(item => this.calculateScore(item, ...))` with one random
draw per item, taken from the stream `rands` starting at index `i`; the
surrounding `Promise.all` rejects as soon as one score throws. -/
def scoreList (now : ℚ) (rands : ℕ → ℚ) (p : Option UserProfile)
    (q : Option UserPreferences) : List Item → ℕ → Except Unit (List ScoredItem)
  | [], _ => .ok []
  | it :: rest, i => do
    let s ← calculateScore now (rands i) it p q
    let tail ← scoreList now rands p q rest (i + 1)
    pure (s :: tail)

/-- The body of `getRecommendations` before its `try/catch`. -/
def getRecommendationsE (db : DB) (now : ℚ) (rands : ℕ → ℚ)
    (userId contentType : String) (limit : ℕ) : Except Unit (List OutItem) := do
  let userProfile ← findProfile db userId
  let userPreferences ← findPreferences db userId
  if userProfile.isNone && userPreferences.isNone then
    getColdStartRecommendations db contentType limit
  else do
    let content ← getActiveContent db contentType
    let scoredContent ← scoreList now rands userProfile userPreferences content 0
    pure (((sortDesc (·.score) scoredContent).take limit).map fun s =>
      { item := s.item, score := none, scoreBreakdown := some s.scoreBreakdown })

/-- `getRecommendations(userId, contentType, limit)`: the `catch` turns any
fault on the ranking path into an empty result list. -/
def getRecommendations (db : DB) (now : ℚ) (rands : ℕ → ℚ)
    (userId contentType : String) (limit : ℕ) : List OutItem :=
  match getRecommendationsE db now rands userId contentType limit with
  | .ok l => l
  | .error _ => []

/-! ### Preference Learner -/

/-- `m[k] || 0` on a weight map. -/
def getWeight (m : WeightMap) (k : String) : ℚ :=
  ((m.find? (·.1 == k)).map (·.2)).getD 0

/-- `m[k] = (m[k] || 0) + d` on a JS object: update the key in place, or
append it in insertion order. -/
def bump (m : WeightMap) (k : String) (d : ℚ) : WeightMap :=
  let v := getWeight m k + d
  if m.any (·.1 == k) then m.map fun e => if e.1 == k then (e.1, v) else e
  else m ++ [(k, v)]

/-- `list.forEach(x => m[x] = (m[x] || 0) + d)`. -/
def bumpAll (m : WeightMap) (ks : List String) (d : ℚ) : WeightMap :=
  ks.foldl (fun acc k => bump acc k d) m

/-- `db.collection('user_preferences').updateOne({user_id}, {$set: ...})`
replacing the stored document's updated fields. -/
def updateOnePrefs (db : DB) (userId : String) (pr : UserPreferences) :
    Except Unit DB :=
  if db.updateFail then .error ()
  else .ok { db with
    user_preferences := db.user_preferences.map fun e =>
      if e.1 == userId then (e.1, pr) else e }

/-- The body of `updatePreferencesFromEngagement` before its `try/catch`. -/
def updatePreferencesE (db : DB) (now : ℚ) (userId engagementType : String)
    (itemData : ItemSnapshot) : Except Unit DB := do
  let preferences ← findPreferences db userId
  match preferences with
  | none => pure db
  | some pr =>
    if engagementType == "save" || engagementType == "like" then
      let tags := itemData.tags.getD []
      let requirements := itemData.requirements.getD []
      let currentInterests := bumpAll (pr.interests.getD []) tags 1
      let currentSkills := bumpAll (pr.skills.getD []) requirements 1
      updateOnePrefs db userId { pr with
        interests := some currentInterests
        skills := some currentSkills
        updated_at := some now }
    else if engagementType == "click_through" then
      let tags := itemData.tags.getD []
      let currentInterests := bumpAll (pr.interests.getD []) tags 0.5
      updateOnePrefs db userId { pr with
        interests := some currentInterests
        updated_at := some now }
    else pure db

/-- `updatePreferencesFromEngagement(userId, engagementType, itemData)`:
always returns (the `catch` swallows every failure, leaving the store as it
was). -/
def updatePreferencesFromEngagement (db : DB) (now : ℚ)
    (userId engagementType : String) (itemData : ItemSnapshot) : DB :=
  match updatePreferencesE db now userId engagementType itemData with
  | .ok db' => db'
  | .error _ => db

/-- The interest weight currently stored for `userId` and tag `t`. -/
def interestWeightIn (db : DB) (userId t : String) : ℚ :=
  getWeight (((prefsOf db userId).bind (·.interests)).getD []) t

/-- The skill weight currently stored for `userId` and requirement `r`. -/
def skillWeightIn (db : DB) (userId r : String) : ℚ :=
  getWeight (((prefsOf db userId).bind (·.skills)).getD []) r

/-! ### Concrete inputs used by counterexamples and witnesses -/

/-- An item whose two tags both match the single user interest `"a"`. -/
def wideItem : Item := { tags := some ["a", "ab"] }

/-- An item whose four tags all match the single user interest `"a"`,
pushing the combined score above 100. -/
def widerItem : Item := { tags := some ["a", "ab", "ac", "ad"] }

/-- A profile with the single interest `"a"`. -/
def narrowProfile : UserProfile := { interests := some ["a"] }

/-- A learner-produced preferences document (weight map, no profile). -/
def mapPrefs : UserPreferences := { interests := some [("tech", 1)] }

/-- An item with one tag, as scored for the `mapPrefs` user. -/
def taggedItem : Item := { tags := some ["tech"] }

/-- A profile whose interests match nothing on `taggedItem`. -/
def cookProfile : UserProfile := { interests := some ["cooking"] }

/-- A preferences document whose interests map would match `taggedItem`. -/
def techPrefs : UserPreferences := { interests := some [("tech", 5)] }

/-- One active job with no tags, for the breakdown-leak counterexample. -/
def leakDB : DB :=
  { jobs := [{ id := "j1", status := "active" }]
    user_profiles := [("u", { interests := some ["tech"] })] }

/-- The breakdown `calculateScore` computes for `leakDB`'s only job. -/
def leakBreakdown : ScoreBreakdown :=
  { interestMatch := 0, skillMatch := 0, locationMatch := 50
    popularity := 0, recency := 100, explore := 0 }

/-- Three active jobs with distinct raw popularity, for the cold-start witness. -/
def coldDB : DB :=
  { jobs := [
      { id := "a", status := "active", likes_count := some 5 },
      { id := "b", status := "active", likes_count := some 2 },
      { id := "c", status := "active", likes_count := some 9 }] }

/-- `coldDB`'s active jobs as fetched (annotated with their type). -/
def coldContent : List Item :=
  [{ id := "a", ctype := "job", status := "active", likes_count := some 5 },
   { id := "b", ctype := "job", status := "active", likes_count := some 2 },
   { id := "c", ctype := "job", status := "active", likes_count := some 9 }]

/-- The cold-start ranking of `coldDB`'s jobs, truncated to 2. -/
def coldOut : List OutItem :=
  [{ item := { id := "c", ctype := "job", status := "active", likes_count := some 9 } },
   { item := { id := "a", ctype := "job", status := "active", likes_count := some 5 } }]

/-- The one object the personalized path returns on `leakDB`. -/
def leakOut : List OutItem :=
  [{ item := { id := "j1", ctype := "job", status := "active" }
     score := none
     scoreBreakdown := some leakBreakdown }]

/-- The cold-start list for `leakDB` (used by the C4 witness). -/
def leakColdOut : List OutItem :=
  [{ item := { id := "j1", ctype := "job", status := "active" } }]

/-- An empty database (no documents, no failures). -/
def emptyDB : DB := {}

/-- A user with one stored preferences document, for the learner witness. -/
def learnDB : DB :=
  { user_preferences := [("u", { interests := some [("x", 2)], skills := some [] })] }

/-- An item location and user city exercising the remote rule of
`calculateLocationMatch`. -/
def remoteItem : Item := { location := some "Remote - Canada" }

/-- A Toronto user profile. -/
def torontoProfile : UserProfile :=
  { location_data := some { city := some "Toronto" } }

/-- An item created exactly at the epoch, for recency boundary checks. -/
def epochItem : Item := { created_at := 0 }

/-- A database whose content queries fail. -/
def contentFailDB : DB := { contentFail := true }

/-- A database whose preference queries fail. -/
def prefsFailDB : DB := { prefsFail := true }

/-- A database whose profile queries fail. -/
def profilesFailDB : DB := { profilesFail := true }

/-- A database holding a preferences document but whose updates fail. -/
def updateFailDB : DB :=
  { user_preferences := [("u", { interests := some [("x", 2)] })]
    updateFail := true }

/-! ### Lemmas about the stable descending sort -/

theorem insertDesc_perm {α : Type} (key : α → ℚ) (x : α) (l : List α) :
    (insertDesc key x l).Perm (x :: l) := by
  induction l with
  | nil => exact List.Perm.refl _
  | cons y ys ih =>
    by_cases h : key x < key y
    · simp only [insertDesc, if_pos h]
      exact (ih.cons y).trans (List.Perm.swap x y ys)
    · simp only [insertDesc, if_neg h]
      exact List.Perm.refl _

theorem sortDesc_perm {α : Type} (key : α → ℚ) (l : List α) :
    (sortDesc key l).Perm l := by
  induction l with
  | nil => exact List.Perm.refl _
  | cons x xs ih => exact (insertDesc_perm key x (sortDesc key xs)).trans (ih.cons x)

theorem length_sortDesc {α : Type} (key : α → ℚ) (l : List α) :
    (sortDesc key l).length = l.length :=
  (sortDesc_perm key l).length_eq

theorem mem_insertDesc {α : Type} {key : α → ℚ} {x z : α} {l : List α} :
    z ∈ insertDesc key x l ↔ z = x ∨ z ∈ l := by
  rw [(insertDesc_perm key x l).mem_iff, List.mem_cons]

theorem pairwise_insertDesc {α : Type} {key : α → ℚ} {x : α} {l : List α}
    (h : l.Pairwise fun a b => key b ≤ key a) :
    (insertDesc key x l).Pairwise fun a b => key b ≤ key a := by
  induction l with
  | nil => simp [insertDesc]
  | cons y ys ih =>
    rcases List.pairwise_cons.1 h with ⟨hy, hys⟩
    by_cases hxy : key x < key y
    · simp only [insertDesc, if_pos hxy]
      refine List.pairwise_cons.2 ⟨?_, ih hys⟩
      intro z hz
      rcases mem_insertDesc.1 hz with hzx | hzm
      · exact hzx ▸ hxy.le
      · exact hy z hzm
    · simp only [insertDesc, if_neg hxy]
      refine List.pairwise_cons.2 ⟨?_, h⟩
      intro z hz
      rcases List.mem_cons.1 hz with hzy | hzm
      · exact hzy ▸ le_of_not_lt hxy
      · exact (hy z hzm).trans (le_of_not_lt hxy)

theorem pairwise_sortDesc {α : Type} (key : α → ℚ) (l : List α) :
    (sortDesc key l).Pairwise fun a b => key b ≤ key a := by
  induction l with
  | nil => simp [sortDesc]
  | cons x xs ih => exact pairwise_insertDesc ih

/-! ### Bounds on the individual sub-scores -/

theorem interestMatch_ok_nonneg {item : Item} {p : Option UserProfile}
    {q : Option UserPreferences} {v : ℚ}
    (h : calculateInterestMatch item p q = .ok v) : 0 ≤ v := by
  unfold calculateInterestMatch at h
  cases hs : interestsSource p q with
  | arr l =>
    rw [hs] at h
    dsimp only at h
    by_cases h0 : l.length = 0 ∨ (item.tags.getD []).length = 0
    · rw [if_pos h0] at h
      cases h
      norm_num
    · rw [if_neg h0] at h
      cases h
      positivity
  | wmap m =>
    rw [hs] at h
    dsimp only at h
    by_cases h0 : (item.tags.getD []).length = 0
    · rw [if_pos h0] at h
      cases h
      norm_num
    · rw [if_neg h0] at h
      cases h

theorem skillMatch_ok_bounds {item : Item} {p : Option UserProfile}
    {q : Option UserPreferences} {v : ℚ}
    (h : calculateSkillMatch item p q = .ok v) : 0 ≤ v ∧ v ≤ 100 := by
  unfold calculateSkillMatch at h
  cases hs : skillsSource p q with
  | arr l =>
    rw [hs] at h
    dsimp only at h
    by_cases h0 : l.length = 0 ∨ (item.requirements.getD []).length = 0
    · rw [if_pos h0] at h
      cases h
      norm_num
    · rw [if_neg h0] at h
      cases h
      push_neg at h0
      have hpos : (0 : ℚ) < ((item.requirements.getD []).length : ℚ) := by
        exact_mod_cast Nat.pos_of_ne_zero h0.2
      have hle : ((List.filter (fun req => l.any fun skill => tagMatches skill req)
          (item.requirements.getD [])).length : ℚ) ≤
          ((item.requirements.getD []).length : ℚ) := by
        exact_mod_cast List.length_filter_le _ _
      have hdiv : ((List.filter (fun req => l.any fun skill => tagMatches skill req)
          (item.requirements.getD [])).length : ℚ) /
          ((item.requirements.getD []).length : ℚ) ≤ 1 :=
        (div_le_one hpos).2 hle
      constructor
      · positivity
      · nlinarith
  | wmap m =>
    rw [hs] at h
    dsimp only at h
    by_cases h0 : (item.requirements.getD []).length = 0
    · rw [if_pos h0] at h
      cases h
      norm_num
    · rw [if_neg h0] at h
      cases h

theorem locationMatch_bounds (item : Item) (p : Option UserProfile)
    (q : Option UserPreferences) :
    0 ≤ calculateLocationMatch item p q ∧ calculateLocationMatch item p q ≤ 100 := by
  simp only [calculateLocationMatch]
  split_ifs <;> norm_num

theorem popularity_bounds {now : ℚ} {item : Item} (h : item.created_at ≤ now) :
    0 ≤ calculateDecayedPopularity now item ∧ calculateDecayedPopularity now item ≤ 100 := by
  have hage : 0 ≤ ageInDays now item :=
    div_nonneg (sub_nonneg.2 h) (by norm_num)
  have hden : (0 : ℚ) < 1 + ageInDays now item * decayRate := by
    have : 0 ≤ ageInDays now item * decayRate := by
      apply mul_nonneg hage; norm_num [decayRate]
    linarith
  simp only [calculateDecayedPopularity]
  refine ⟨le_min ?_ (by norm_num), min_le_right _ _⟩
  have hnum : (0 : ℚ) ≤ (item.likes_count.getD 0 : ℚ) + (item.saves_count.getD 0 : ℚ) +
      (item.views.getD 0 : ℚ) := by positivity
  have hden' : (0 : ℚ) ≤ 1 + ageInDays now item * decayRate := hden.le
  positivity

theorem recency_bounds (now : ℚ) (item : Item) :
    0 ≤ calculateRecency now item ∧ calculateRecency now item ≤ 100 := by
  simp only [calculateRecency]
  split_ifs <;> norm_num

/-- Inversion of `calculateScore`: what an `.ok` result must contain. -/
theorem calculateScore_ok {now rand : ℚ} {item : Item} {p : Option UserProfile}
    {q : Option UserPreferences} {s : ScoredItem}
    (h : calculateScore now rand item p q = .ok s) :
    s.item = item ∧
    s.scoreBreakdown.popularity = calculateDecayedPopularity now item ∧
    s.scoreBreakdown.recency = calculateRecency now item ∧
    s.scoreBreakdown.explore = rand * 100 ∧
    ((calculateInterestMatch item p q = .ok s.scoreBreakdown.interestMatch ∧
      calculateSkillMatch item p q = .ok s.scoreBreakdown.skillMatch ∧
      s.scoreBreakdown.locationMatch = calculateLocationMatch item p q) ∨
     (s.scoreBreakdown.interestMatch = 0 ∧ s.scoreBreakdown.skillMatch = 0 ∧
      s.scoreBreakdown.locationMatch = 0)) ∧
    s.score =
      s.scoreBreakdown.interestMatch * 0.4 + s.scoreBreakdown.skillMatch * 0.25 +
      s.scoreBreakdown.locationMatch * 0.05 + s.scoreBreakdown.popularity * 0.15 +
      s.scoreBreakdown.recency * 0.1 + s.scoreBreakdown.explore * 0.05 := by
  unfold calculateScore at h
  by_cases hpq : (p.isSome || q.isSome) = true
  · simp only [hpq, if_pos, Bind.bind, Except.bind, calculateExploreFactor] at h
    cases him : calculateInterestMatch item p q with
    | error e => rw [him] at h; cases h
    | ok im =>
      rw [him] at h
      cases hsm : calculateSkillMatch item p q with
      | error e => rw [hsm] at h; cases h
      | ok sm =>
        rw [hsm] at h
        simp only [Pure.pure, Except.pure, Except.ok.injEq] at h
        subst h
        exact ⟨rfl, rfl, rfl, rfl, Or.inl ⟨rfl, rfl, rfl⟩, rfl⟩
  · simp only [hpq, if_neg, Bool.false_eq_true, if_false, Bind.bind, Except.bind,
      Pure.pure, Except.pure, calculateExploreFactor, Except.ok.injEq] at h
    subst h
    refine ⟨rfl, rfl, rfl, rfl, Or.inr ⟨rfl, rfl, rfl⟩, rfl⟩

/-- C1: FAILS as stated — the interest sub-score is `matched tags / user
interests`, and more tags than interests can match.  With user interests
`["a"]` and item tags `["a","ab"]` both tags match the single interest, so
`interestMatch = 200 ∉ [0,100]`. -/
theorem C1_counterexample :
    calculateInterestMatch wideItem (some narrowProfile) none = .ok 200 ∧
    ¬((200 : ℚ) ≤ 100) ∧
    (calculateScore 0 0 widerItem (some narrowProfile) none).map (·.score) =
      .ok (345 / 2) ∧
    ¬((345 / 2 : ℚ) ≤ 100) := by
  refine ⟨?_, by norm_num, ?_, by norm_num⟩
  · have hf : List.filter (fun tag => tagMatches "a" tag) ["a", "ab"] = ["a", "ab"] := by
      decide
    norm_num [calculateInterestMatch, interestsSource, wideItem, narrowProfile, hf]
  · have hf : List.filter (fun tag => tagMatches "a" tag) ["a", "ab", "ac", "ad"] =
        ["a", "ab", "ac", "ad"] := by
      decide
    norm_num [calculateScore, calculateInterestMatch, calculateSkillMatch,
      calculateLocationMatch, calculateDecayedPopularity, calculateRecency,
      calculateExploreFactor, interestsSource, skillsSource, locationSource,
      ageInDays, decayRate, truthyStr, widerItem, narrowProfile, hf,
      Bind.bind, Except.bind, Pure.pure, Except.pure, Except.map]

/-- C1 (amended): for every scored item (with a non-future `created_at` and
a random draw in `[0,1)`), the `skillMatch`, `locationMatch`, `popularity`,
`recency` and `explore` sub-scores lie in `[0,100]` (`explore` in
`[0,100)`), while `interestMatch` is only guaranteed non-negative and may
exceed 100; the combined score lies in `[0, 0.4·interestMatch + 60]`, hence
in `[0,100]` whenever `interestMatch ≤ 100`. -/
theorem C1_subscore_bounds (now rand : ℚ) (item : Item) (p : Option UserProfile)
    (q : Option UserPreferences) (s : ScoredItem)
    (hc : item.created_at ≤ now) (hr0 : 0 ≤ rand) (hr1 : rand < 1)
    (h : calculateScore now rand item p q = .ok s) :
    0 ≤ s.scoreBreakdown.interestMatch ∧
    (0 ≤ s.scoreBreakdown.skillMatch ∧ s.scoreBreakdown.skillMatch ≤ 100) ∧
    (0 ≤ s.scoreBreakdown.locationMatch ∧ s.scoreBreakdown.locationMatch ≤ 100) ∧
    (0 ≤ s.scoreBreakdown.popularity ∧ s.scoreBreakdown.popularity ≤ 100) ∧
    (0 ≤ s.scoreBreakdown.recency ∧ s.scoreBreakdown.recency ≤ 100) ∧
    (0 ≤ s.scoreBreakdown.explore ∧ s.scoreBreakdown.explore < 100) ∧
    0 ≤ s.score ∧
    s.score ≤ 0.4 * s.scoreBreakdown.interestMatch + 60 ∧
    (s.scoreBreakdown.interestMatch ≤ 100 → s.score ≤ 100) := by
  obtain ⟨-, hpop, hrec, hexp, hper, hscore⟩ := calculateScore_ok h
  have hpopb := popularity_bounds hc
  have hrecb := recency_bounds now item
  have him : 0 ≤ s.scoreBreakdown.interestMatch := by
    rcases hper with ⟨h1, -, -⟩ | ⟨h1, -, -⟩
    · exact interestMatch_ok_nonneg h1
    · rw [h1]
  have hsm : 0 ≤ s.scoreBreakdown.skillMatch ∧ s.scoreBreakdown.skillMatch ≤ 100 := by
    rcases hper with ⟨-, h2, -⟩ | ⟨-, h2, -⟩
    · exact skillMatch_ok_bounds h2
    · rw [h2]; norm_num
  have hlm : 0 ≤ s.scoreBreakdown.locationMatch ∧ s.scoreBreakdown.locationMatch ≤ 100 := by
    rcases hper with ⟨-, -, h3⟩ | ⟨-, -, h3⟩
    · rw [h3]; exact locationMatch_bounds item p q
    · rw [h3]; norm_num
  have hexb : 0 ≤ s.scoreBreakdown.explore ∧ s.scoreBreakdown.explore < 100 := by
    rw [hexp]; constructor <;> nlinarith
  rw [hpop] at *
  rw [hrec] at *
  refine ⟨him, hsm, hlm, hpopb, hrecb, hexb, ?_, ?_, ?_⟩
  · rw [hscore]
    have := hpopb.1
    have := hrecb.1
    nlinarith [hsm.1, hlm.1, hexb.1]
  · rw [hscore]
    nlinarith [hsm.2, hlm.2, hpopb.2, hrecb.2, hexb.2]
  · intro hle
    rw [hscore]
    nlinarith [hsm.2, hlm.2, hpopb.2, hrecb.2, hexb.2]

/-- Witness for `C1_subscore_bounds` at a concrete input. -/
theorem C1_subscore_bounds_witness :
    0 ≤ (0 : ℚ) ∧ ((0 : ℚ) ≤ 0 ∧ (0 : ℚ) ≤ 100) ∧ ((0 : ℚ) ≤ 0 ∧ (0 : ℚ) ≤ 100) ∧
    ((0 : ℚ) ≤ 0 ∧ (0 : ℚ) ≤ 100) ∧ ((0 : ℚ) ≤ 100 ∧ (100 : ℚ) ≤ 100) ∧
    ((0 : ℚ) ≤ 0 ∧ (0 : ℚ) < 100) ∧ 0 ≤ (10 : ℚ) ∧
    (10 : ℚ) ≤ 0.4 * 0 + 60 ∧ ((0 : ℚ) ≤ 100 → (10 : ℚ) ≤ 100) := by
  have h : calculateScore 0 0 epochItem none none =
      .ok { item := epochItem, score := 10
            scoreBreakdown :=
              { interestMatch := 0, skillMatch := 0, locationMatch := 0
                popularity := 0, recency := 100, explore := 0 } } := by
    norm_num [calculateScore, calculateDecayedPopularity, calculateRecency,
      calculateExploreFactor, ageInDays, decayRate, epochItem, Bind.bind,
      Except.bind, Pure.pure, Except.pure]
  exact C1_subscore_bounds 0 0 epochItem none none _ (by norm_num [epochItem])
    le_rfl (by norm_num) h

/-- C2: FAILS as stated (code bug) — a user whose only stored data is a
learner-produced preferences document has `interests` as a weight map; the
scorer feeds it to the array methods `.length`/`.filter`/`.some`, so on any
item with at least one tag `calculateScore` raises a `TypeError` instead of
returning a `ScoredCandidate`.  Here: user with preferences
`{interests: {"tech": 1}}`, no profile, item with tags `["tech"]`. -/
theorem C2_scorer_raises :
    calculateScore 0 0 taggedItem none (some mapPrefs) = .error () := by
  norm_num [calculateScore, calculateInterestMatch, interestsSource, mapPrefs,
    taggedItem, Bind.bind, Except.bind]

/-- C3: FAILS as stated — with both a profile and a preferences document
present, the fallback chain `userProfile?.interests ||
userPreferences?.interests` consults the PROFILE, not the preferences.
With profile interests `["cooking"]` (matching nothing) and preferences
interests `{"tech": 5}`, the result is the profile's 0; consulting the
preferences would instead have reached the weight map (and raised). -/
theorem C3_counterexample :
    calculateInterestMatch taggedItem (some cookProfile) (some techPrefs) = .ok 0 ∧
    calculateInterestMatch taggedItem none (some techPrefs) = .error () ∧
    (Except.ok (0 : ℚ) : Except Unit ℚ) ≠ .error () := by
  have hf : List.filter (fun tag => tagMatches "cooking" tag) ["tech"] = [] := by
    decide
  refine ⟨?_, ?_, by simp⟩
  · norm_num [calculateInterestMatch, interestsSource, taggedItem, cookProfile,
      techPrefs, hf]
  · norm_num [calculateInterestMatch, interestsSource, taggedItem, techPrefs]

/-- C3 (amended): `interestMatch` and `skillMatch` each consult only one
source of interests/skills, preferring the PROFILE's field and falling back
to the preferences document only when the profile (or the respective field
on it) is absent. -/
theorem C3_profile_precedence (item : Item) (prof : UserProfile)
    (p : Option UserProfile) (q q' : Option UserPreferences) :
    (prof.interests.isSome = true →
      calculateInterestMatch item (some prof) q =
        calculateInterestMatch item (some prof) q') ∧
    (prof.skills.isSome = true →
      calculateSkillMatch item (some prof) q =
        calculateSkillMatch item (some prof) q') ∧
    ((p.bind (·.interests)).isNone = true →
      calculateInterestMatch item p q = calculateInterestMatch item none q) ∧
    ((p.bind (·.skills)).isNone = true →
      calculateSkillMatch item p q = calculateSkillMatch item none q) := by
  refine ⟨?_, ?_, ?_, ?_⟩
  · intro h
    obtain ⟨l, hl⟩ := Option.isSome_iff_exists.1 h
    simp [calculateInterestMatch, interestsSource, hl]
  · intro h
    obtain ⟨l, hl⟩ := Option.isSome_iff_exists.1 h
    simp [calculateSkillMatch, skillsSource, hl]
  · intro h
    have hno : p.bind (·.interests) = none := Option.isNone_iff_eq_none.1 h
    simp [calculateInterestMatch, interestsSource, hno]
  · intro h
    have hno : p.bind (·.skills) = none := Option.isNone_iff_eq_none.1 h
    simp [calculateSkillMatch, skillsSource, hno]

/-- Witness for `C3_profile_precedence`: with the profile's interests
present, swapping the preferences document for `none` changes nothing. -/
theorem C3_profile_precedence_witness :
    calculateInterestMatch taggedItem (some cookProfile) (some techPrefs) =
      calculateInterestMatch taggedItem (some cookProfile) none :=
  (C3_profile_precedence taggedItem cookProfile (some cookProfile)
    (some techPrefs) none).1 (by decide)

/-! ### Inversion lemmas for the Ranker and Cold-Start Selector -/

theorem getColdStart_inv {db : DB} {ct : String} {lim : ℕ} {l : List OutItem}
    (h : getColdStartRecommendations db ct lim = .ok l) :
    ∃ content, getActiveContent db ct = .ok content ∧
      l = ((sortDesc (fun s => s.2)
          (content.map fun it => (it, (popTotal it : ℚ)))).take lim).map
        fun s => { item := s.1, score := none, scoreBreakdown := none } := by
  unfold getColdStartRecommendations at h
  cases hc : getActiveContent db ct with
  | error e =>
    rw [hc] at h
    simp only [Bind.bind, Except.bind] at h
    exact Except.noConfusion h
  | ok content =>
    rw [hc] at h
    simp only [Bind.bind, Except.bind, Pure.pure, Except.pure, Except.ok.injEq] at h
    exact ⟨content, rfl, h.symm⟩

theorem getRecommendationsE_inv {db : DB} {now : ℚ} {rands : ℕ → ℚ}
    {uid ct : String} {lim : ℕ} {l : List OutItem}
    (h : getRecommendationsE db now rands uid ct lim = .ok l) :
    ∃ op oq, findProfile db uid = .ok op ∧ findPreferences db uid = .ok oq ∧
      ((op = none ∧ oq = none ∧ getColdStartRecommendations db ct lim = .ok l) ∨
       (¬(op = none ∧ oq = none) ∧
        ∃ content sc, getActiveContent db ct = .ok content ∧
          scoreList now rands op oq content 0 = .ok sc ∧
          l = ((sortDesc (fun s => s.score) sc).take lim).map fun s =>
            { item := s.item, score := none, scoreBreakdown := some s.scoreBreakdown })) := by
  unfold getRecommendationsE at h
  cases hp : findProfile db uid with
  | error e =>
    rw [hp] at h
    simp only [Bind.bind, Except.bind] at h
    exact Except.noConfusion h
  | ok op =>
    rw [hp] at h
    cases hq : findPreferences db uid with
    | error e =>
      rw [hq] at h
      simp only [Bind.bind, Except.bind] at h
      exact Except.noConfusion h
    | ok oq =>
      rw [hq] at h
      simp only [Bind.bind, Except.bind] at h
      by_cases hnn : (op.isNone && oq.isNone) = true
      · rw [if_pos hnn] at h
        have hop : op = none := Option.isNone_iff_eq_none.1 (Bool.and_elim_left hnn)
        have hoq : oq = none := Option.isNone_iff_eq_none.1 (Bool.and_elim_right hnn)
        exact ⟨op, oq, rfl, rfl, Or.inl ⟨hop, hoq, h⟩⟩
      · rw [if_neg hnn] at h
        cases hc : getActiveContent db ct with
        | error e =>
          rw [hc] at h
          simp only [Bind.bind, Except.bind] at h
          exact Except.noConfusion h
        | ok content =>
          rw [hc] at h
          simp only [Bind.bind, Except.bind] at h
          cases hsc : scoreList now rands op oq content 0 with
          | error e =>
            rw [hsc] at h
            simp only at h
            exact Except.noConfusion h
          | ok sc =>
            rw [hsc] at h
            simp only [Pure.pure, Except.pure, Except.ok.injEq] at h
            refine ⟨op, oq, rfl, rfl, Or.inr ⟨?_, content, sc, rfl, hsc, h.symm⟩⟩
            intro ⟨h1, h2⟩
            simp [h1, h2] at hnn

/-- Everything `getColdStartRecommendations` returns: within the limit,
score stripped, no breakdown, sorted by descending raw popularity, and
drawn from the fetched active content. -/
theorem coldStart_output_shape {db : DB} {ct : String} {lim : ℕ} {l : List OutItem}
    {content : List Item}
    (hc : getActiveContent db ct = .ok content)
    (h : getColdStartRecommendations db ct lim = .ok l) :
    l.length = min lim content.length ∧
    (∀ o ∈ l, o.score = none ∧ o.scoreBreakdown = none ∧ o.item ∈ content) ∧
    l.Pairwise (fun a b => popTotal b.item ≤ popTotal a.item) := by
  obtain ⟨content', hc', hl⟩ := getColdStart_inv h
  rw [hc] at hc'
  cases hc'
  subst hl
  set pairs := content.map fun it => (it, (popTotal it : ℚ)) with hpairs
  have hmem2 : ∀ s ∈ sortDesc (fun s => s.2) pairs,
      s.1 ∈ content ∧ s.2 = (popTotal s.1 : ℚ) := by
    intro s hs
    have : s ∈ pairs := ((sortDesc_perm _ pairs).mem_iff).1 hs
    rw [hpairs] at this
    obtain ⟨it, hit, rfl⟩ := List.mem_map.1 this
    exact ⟨hit, rfl⟩
  refine ⟨?_, ?_, ?_⟩
  · rw [List.length_map, List.length_take, length_sortDesc, List.length_map]
  · intro o ho
    obtain ⟨s, hs, rfl⟩ := List.mem_map.1 ho
    have hs' : s ∈ sortDesc (fun s => s.2) pairs := (List.take_subset _ _) hs
    exact ⟨rfl, rfl, (hmem2 s hs').1⟩
  · have hsorted : (sortDesc (fun s => s.2) pairs).Pairwise
        (fun a b => (popTotal b.1 : ℚ) ≤ (popTotal a.1 : ℚ)) := by
      refine ((pairwise_sortDesc (fun s => s.2) pairs).imp_of_mem ?_)
      intro a b ha hb hab
      rw [(hmem2 a ha).2, (hmem2 b hb).2] at hab
      exact hab
    have htake := hsorted.sublist (List.take_sublist lim _)
    rw [List.pairwise_map]
    exact htake.imp (by intro a b hab; exact_mod_cast hab)

/-- C4: FAILS as stated — `getRecommendations` sets `score: undefined` on
each returned object but never removes `scoreBreakdown`, so every object on
the personalized path still carries it.  Concrete run: one active job, a
user with a profile. -/
theorem C4_counterexample :
    (getRecommendations leakDB 0 (fun _ => 0) "u" "job" 5).map (·.scoreBreakdown) =
      [some leakBreakdown] ∧
    some leakBreakdown ≠ (none : Option ScoreBreakdown) := by
  constructor
  · norm_num [getRecommendations, getRecommendationsE, findProfile, findPreferences,
      prefsOf, getActiveContent, activeOf, scoreList, calculateScore,
      calculateInterestMatch, calculateSkillMatch, calculateLocationMatch,
      calculateDecayedPopularity, calculateRecency, calculateExploreFactor,
      interestsSource, skillsSource, locationSource, ageInDays, decayRate,
      sortDesc, insertDesc, truthyStr, tagMatches, jsIncludes, lowerChars,
      startsWith, popTotal, leakDB, leakBreakdown, getColdStartRecommendations,
      Except.bind, Except.map, Except.pure, Bind.bind, Pure.pure, Functor.map,
      Option.isNone]
  · simp

/-- C4 (amended): `getRecommendations` returns at most `limit` items and
strips `score` from every returned object; cold-start objects carry neither
`score` nor `scoreBreakdown`; but objects produced on the personalized path
(profile or preferences found) retain their `scoreBreakdown`. -/
theorem C4_output_shape (db : DB) (now : ℚ) (rands : ℕ → ℚ)
    (userId contentType : String) (limit : ℕ) :
    (getRecommendations db now rands userId contentType limit).length ≤ limit ∧
    (∀ o ∈ getRecommendations db now rands userId contentType limit,
      o.score = none) ∧
    (∀ l content, getActiveContent db contentType = .ok content →
      getColdStartRecommendations db contentType limit = .ok l →
      l.length ≤ limit ∧ ∀ o ∈ l, o.score = none ∧ o.scoreBreakdown = none) ∧
    (∀ l, getRecommendationsE db now rands userId contentType limit = .ok l →
      (¬(findProfile db userId = .ok none ∧ findPreferences db userId = .ok none)) →
      ∀ o ∈ l, o.scoreBreakdown.isSome = true) := by
  have hshape : ∀ l, getRecommendationsE db now rands userId contentType limit = .ok l →
      l.length ≤ limit ∧ ∀ o ∈ l, o.score = none := by
    intro l h
    obtain ⟨op, oq, hp, hq, hcase⟩ := getRecommendationsE_inv h
    rcases hcase with ⟨-, -, hcold⟩ | ⟨-, content, sc, -, -, rfl⟩
    · obtain ⟨content, hc, rfl⟩ := getColdStart_inv hcold
      constructor
      · rw [List.length_map, List.length_take]
        exact min_le_left _ _
      · intro o ho
        obtain ⟨s, -, rfl⟩ := List.mem_map.1 ho
        rfl
    · constructor
      · rw [List.length_map, List.length_take]
        exact min_le_left _ _
      · intro o ho
        obtain ⟨s, -, rfl⟩ := List.mem_map.1 ho
        rfl
  refine ⟨?_, ?_, ?_, ?_⟩
  · unfold getRecommendations
    cases hE : getRecommendationsE db now rands userId contentType limit with
    | error e => simp
    | ok l => exact (hshape l hE).1
  · unfold getRecommendations
    cases hE : getRecommendationsE db now rands userId contentType limit with
    | error e => simp
    | ok l => exact (hshape l hE).2
  · intro l content hc hl
    obtain ⟨hlen, hmem, -⟩ := coldStart_output_shape hc hl
    exact ⟨hlen ▸ min_le_left _ _, fun o ho => ⟨(hmem o ho).1, (hmem o ho).2.1⟩⟩
  · intro l hE hnot
    obtain ⟨op, oq, hp, hq, hcase⟩ := getRecommendationsE_inv hE
    rcases hcase with ⟨hop, hoq, -⟩ | ⟨-, content, sc, -, -, rfl⟩
    · exact absurd ⟨hop ▸ hp, hoq ▸ hq⟩ hnot
    · intro o ho
      obtain ⟨s, -, rfl⟩ := List.mem_map.1 ho
      rfl

/-- Witness for `C4_output_shape` on `leakDB`. -/
theorem C4_output_shape_witness :
    (getRecommendations leakDB 0 (fun _ => 0) "u" "job" 5).length ≤ 5 ∧
    leakColdOut.length ≤ 5 ∧
    (∀ o ∈ leakColdOut, o.score = none ∧ o.scoreBreakdown = none) ∧
    (∀ o ∈ leakOut, o.scoreBreakdown.isSome = true) := by
  have h := C4_output_shape leakDB 0 (fun _ => 0) "u" "job" 5
  have hact : getActiveContent leakDB "job" =
      .ok [{ id := "j1", ctype := "job", status := "active" }] := by
    norm_num [getActiveContent, activeOf, leakDB]
  have hcold : getColdStartRecommendations leakDB "job" 5 = .ok leakColdOut := by
    norm_num [getColdStartRecommendations, getActiveContent, activeOf, leakDB,
      leakColdOut, popTotal, sortDesc, insertDesc, Bind.bind, Except.bind,
      Pure.pure, Except.pure]
  have hE : getRecommendationsE leakDB 0 (fun _ => 0) "u" "job" 5 = .ok leakOut := by
    norm_num [getRecommendationsE, findProfile, findPreferences, prefsOf,
      getActiveContent, activeOf, scoreList, calculateScore,
      calculateInterestMatch, calculateSkillMatch, calculateLocationMatch,
      calculateDecayedPopularity, calculateRecency, calculateExploreFactor,
      interestsSource, skillsSource, locationSource, ageInDays, decayRate,
      sortDesc, insertDesc, truthyStr, tagMatches, jsIncludes, lowerChars,
      startsWith, popTotal, leakDB, leakBreakdown, leakOut,
      getColdStartRecommendations, Except.bind, Except.map, Except.pure,
      Bind.bind, Pure.pure, Functor.map, Option.isNone]
  have hfp : findProfile leakDB "u" = .ok (some { interests := some ["tech"] }) := by
    norm_num [findProfile, leakDB]
  refine ⟨h.1, (h.2.2.1 leakColdOut _ hact hcold).1, (h.2.2.1 leakColdOut _ hact hcold).2,
    h.2.2.2 leakOut hE ?_⟩
  intro hcon
  rw [hfp] at hcon
  exact absurd hcon.1 (by simp)

/-- C5: for a user with neither a profile nor a preferences document,
`getRecommendations` returns exactly the cold-start list: the active items
of the requested type, ordered by descending `likes_count + saves_count +
views` (no decay, no recency, no personalization), truncated to `limit`
and with the transient score stripped. -/
theorem C5_cold_start_equivalence (db : DB) (now : ℚ) (rands : ℕ → ℚ)
    (userId contentType : String) (limit : ℕ) (l : List OutItem)
    (content : List Item)
    (hp : findProfile db userId = .ok none)
    (hq : findPreferences db userId = .ok none)
    (hc : getActiveContent db contentType = .ok content)
    (hl : getColdStartRecommendations db contentType limit = .ok l) :
    getRecommendations db now rands userId contentType limit = l ∧
    l.Pairwise (fun a b => popTotal b.item ≤ popTotal a.item) ∧
    l.length = min limit content.length ∧
    (∀ o ∈ l, o.item ∈ content ∧ o.score = none ∧ o.scoreBreakdown = none) := by
  obtain ⟨hlen, hmem, hsort⟩ := coldStart_output_shape hc hl
  refine ⟨?_, hsort, hlen,
    fun o ho => ⟨(hmem o ho).2.2, (hmem o ho).1, (hmem o ho).2.1⟩⟩
  simp only [getRecommendations, getRecommendationsE, hp, hq, Bind.bind,
    Except.bind, Option.isNone_none, Bool.and_self, if_true, hl]

/-- Witness for `C5_cold_start_equivalence` on `coldDB` with an unknown
user. -/
theorem C5_cold_start_equivalence_witness :
    getRecommendations coldDB 0 (fun _ => 0) "ghost" "job" 2 = coldOut ∧
    coldOut.Pairwise (fun a b => popTotal b.item ≤ popTotal a.item) ∧
    coldOut.length = min 2 coldContent.length ∧
    (∀ o ∈ coldOut, o.item ∈ coldContent ∧ o.score = none ∧
      o.scoreBreakdown = none) := by
  have hp : findProfile coldDB "ghost" = .ok none := by
    norm_num [findProfile, coldDB]
  have hq : findPreferences coldDB "ghost" = .ok none := by
    norm_num [findPreferences, prefsOf, coldDB]
  have hc : getActiveContent coldDB "job" = .ok coldContent := by
    norm_num [getActiveContent, activeOf, coldDB, coldContent]
  have hl : getColdStartRecommendations coldDB "job" 2 = .ok coldOut := by
    norm_num [getColdStartRecommendations, getActiveContent, activeOf, coldDB,
      coldOut, popTotal, sortDesc, insertDesc, Bind.bind, Except.bind,
      Pure.pure, Except.pure]
  exact C5_cold_start_equivalence coldDB 0 (fun _ => 0) "ghost" "job" 2 coldOut
    coldContent hp hq hc hl

/-! ### Lemmas about weight-map updates -/

theorem getWeight_map_set (k : String) (v : ℚ) (m : WeightMap)
    (hm : m.any (fun e => e.1 == k) = true) :
    getWeight (m.map fun e => if e.1 == k then (e.1, v) else e) k = v := by
  induction m with
  | nil => cases hm
  | cons e es ih =>
    rw [List.map_cons]
    by_cases he : (e.1 == k) = true
    · rw [if_pos he]
      unfold getWeight
      rw [List.find?_cons_of_pos _ (by simpa using he)]
      rfl
    · rw [if_neg he]
      have hm' : es.any (fun x => x.1 == k) = true := by
        rcases List.any_eq_true.1 hm with ⟨x, hx, hxk⟩
        rcases List.mem_cons.1 hx with rfl | hxes
        · exact absurd hxk he
        · exact List.any_eq_true.2 ⟨x, hxes, hxk⟩
      unfold getWeight
      rw [List.find?_cons_of_neg _ (by simpa using he)]
      exact ih hm'

theorem getWeight_map_set_other (k t : String) (v : ℚ) (m : WeightMap)
    (h : t ≠ k) :
    getWeight (m.map fun e => if e.1 == k then (e.1, v) else e) t = getWeight m t := by
  induction m with
  | nil => rfl
  | cons e es ih =>
    rw [List.map_cons]
    by_cases he : (e.1 == k) = true
    · rw [if_pos he]
      have hkeq : e.1 = k := by simpa using he
      have hneg : ¬((e.1 == t) = true) := by
        simp only [hkeq, beq_iff_eq]
        exact fun hc => h hc.symm
      have h1 : List.find? (fun x => x.1 == t)
          ((e.1, v) :: es.map fun e => if e.1 == k then (e.1, v) else e) =
          List.find? (fun x => x.1 == t)
            (es.map fun e => if e.1 == k then (e.1, v) else e) :=
        List.find?_cons_of_neg _ hneg
      have h2 : List.find? (fun x => x.1 == t) (e :: es) =
          List.find? (fun x => x.1 == t) es :=
        List.find?_cons_of_neg _ hneg
      unfold getWeight
      rw [h1, h2]
      exact ih
    · rw [if_neg he]
      by_cases het : (e.1 == t) = true
      · have h1 : List.find? (fun x => x.1 == t)
            (e :: es.map fun e => if e.1 == k then (e.1, v) else e) = some e :=
          List.find?_cons_of_pos _ het
        have h2 : List.find? (fun x => x.1 == t) (e :: es) = some e :=
          List.find?_cons_of_pos _ het
        unfold getWeight
        rw [h1, h2]
      · have h1 : List.find? (fun x => x.1 == t)
            (e :: es.map fun e => if e.1 == k then (e.1, v) else e) =
            List.find? (fun x => x.1 == t)
              (es.map fun e => if e.1 == k then (e.1, v) else e) :=
          List.find?_cons_of_neg _ het
        have h2 : List.find? (fun x => x.1 == t) (e :: es) =
            List.find? (fun x => x.1 == t) es :=
          List.find?_cons_of_neg _ het
        unfold getWeight
        rw [h1, h2]
        exact ih

theorem getWeight_append_one_same (m : WeightMap) (k : String) (v : ℚ)
    (hnone : m.find? (fun e => e.1 == k) = none) :
    getWeight (m ++ [(k, v)]) k = v := by
  unfold getWeight
  rw [List.find?_append, hnone, Option.none_or,
    List.find?_cons_of_pos _ (by simp)]
  rfl

theorem getWeight_append_one_other (m : WeightMap) (k t : String) (v : ℚ)
    (h : t ≠ k) :
    getWeight (m ++ [(k, v)]) t = getWeight m t := by
  unfold getWeight
  rw [List.find?_append]
  have hone : List.find? (fun e => e.1 == t) [(k, v)] = none := by
    rw [List.find?_eq_none]
    intro x hx
    rw [List.mem_singleton] at hx
    subst hx
    simp only [beq_iff_eq]
    exact fun hc => h hc.symm
  rw [hone, Option.or_none]

theorem getWeight_bump_same (m : WeightMap) (k : String) (d : ℚ) :
    getWeight (bump m k d) k = getWeight m k + d := by
  show getWeight (if m.any (fun e => e.1 == k) then
      m.map fun e => if e.1 == k then (e.1, getWeight m k + d) else e
    else m ++ [(k, getWeight m k + d)]) k = getWeight m k + d
  by_cases hm : m.any (fun e => e.1 == k) = true
  · rw [if_pos hm]
    exact getWeight_map_set k _ m hm
  · rw [if_neg hm]
    refine getWeight_append_one_same m k _ ?_
    rw [List.find?_eq_none]
    intro x hx
    exact fun hc => hm (List.any_eq_true.2 ⟨x, hx, hc⟩)

theorem getWeight_bump_other (m : WeightMap) (k t : String) (d : ℚ)
    (h : t ≠ k) :
    getWeight (bump m k d) t = getWeight m t := by
  show getWeight (if m.any (fun e => e.1 == k) then
      m.map fun e => if e.1 == k then (e.1, getWeight m k + d) else e
    else m ++ [(k, getWeight m k + d)]) t = getWeight m t
  by_cases hm : m.any (fun e => e.1 == k) = true
  · rw [if_pos hm]
    exact getWeight_map_set_other k t _ m h
  · rw [if_neg hm]
    exact getWeight_append_one_other m k t _ h

theorem getWeight_bumpAll_not_mem (d : ℚ) :
    ∀ (ks : List String) (m : WeightMap) (t : String), t ∉ ks →
      getWeight (bumpAll m ks d) t = getWeight m t := by
  intro ks
  induction ks with
  | nil => intro m t _; rfl
  | cons k ks ih =>
    intro m t ht
    have h1 : t ≠ k := fun hc => ht (hc ▸ List.mem_cons_self k ks)
    have h2 : t ∉ ks := fun hc => ht (List.mem_cons_of_mem k hc)
    show getWeight (bumpAll (bump m k d) ks d) t = getWeight m t
    rw [ih (bump m k d) t h2, getWeight_bump_other m k t d h1]

theorem getWeight_bumpAll_mem (d : ℚ) :
    ∀ (ks : List String) (m : WeightMap) (t : String), ks.Nodup → t ∈ ks →
      getWeight (bumpAll m ks d) t = getWeight m t + d := by
  intro ks
  induction ks with
  | nil => intro m t _ ht; cases ht
  | cons k ks ih =>
    intro m t hnd ht
    obtain ⟨hk, hnd'⟩ := List.nodup_cons.1 hnd
    show getWeight (bumpAll (bump m k d) ks d) t = getWeight m t + d
    rcases List.mem_cons.1 ht with rfl | hmem
    · rw [getWeight_bumpAll_not_mem d ks (bump m t d) t hk,
        getWeight_bump_same m t d]
    · have hne : t ≠ k := fun hc => hk (hc ▸ hmem)
      rw [ih (bump m k d) t hnd' hmem, getWeight_bump_other m k t d hne]

/-- What `updatePreferencesFromEngagement` does on `save`/`like` when the
user's preferences document exists and the store works. -/
theorem updatePrefs_save_like {db : DB} (now : ℚ) {uid et : String}
    (snap : ItemSnapshot) {pr : UserPreferences}
    (hpr : prefsOf db uid = some pr)
    (hqf : db.prefsFail = false) (huf : db.updateFail = false)
    (het : et = "save" ∨ et = "like") :
    updatePreferencesFromEngagement db now uid et snap =
      { db with user_preferences := db.user_preferences.map fun e =>
          if e.1 == uid then
            (e.1, { pr with
              interests := some (bumpAll (pr.interests.getD []) (snap.tags.getD []) 1)
              skills := some (bumpAll (pr.skills.getD []) (snap.requirements.getD []) 1)
              updated_at := some now })
          else e } := by
  unfold updatePreferencesFromEngagement updatePreferencesE findPreferences
    updateOnePrefs
  rw [hqf, huf]
  rcases het with rfl | rfl <;>
    simp [Bind.bind, Except.bind, hpr]

/-- What `updatePreferencesFromEngagement` does on `click_through` when the
user's preferences document exists and the store works. -/
theorem updatePrefs_click {db : DB} (now : ℚ) {uid : String}
    (snap : ItemSnapshot) {pr : UserPreferences}
    (hpr : prefsOf db uid = some pr)
    (hqf : db.prefsFail = false) (huf : db.updateFail = false) :
    updatePreferencesFromEngagement db now uid "click_through" snap =
      { db with user_preferences := db.user_preferences.map fun e =>
          if e.1 == uid then
            (e.1, { pr with
              interests := some (bumpAll (pr.interests.getD []) (snap.tags.getD []) 0.5)
              updated_at := some now })
          else e } := by
  unfold updatePreferencesFromEngagement updatePreferencesE findPreferences
    updateOnePrefs
  rw [hqf, huf]
  simp [Bind.bind, Except.bind, hpr]

/-- After the in-place update, the stored document for `uid` is the new
one. -/
theorem prefsOf_after_update {db : DB} {uid : String} {pr newpr : UserPreferences}
    (hpr : prefsOf db uid = some pr) :
    prefsOf ({ db with user_preferences := db.user_preferences.map fun e =>
        if e.1 == uid then (e.1, newpr) else e } : DB) uid = some newpr := by
  unfold prefsOf at hpr ⊢
  have hcomp : ((fun e : String × UserPreferences => e.1 == uid) ∘ fun e =>
      if e.1 == uid then (e.1, newpr) else e) = fun e => e.1 == uid := by
    funext e
    show ((if e.1 == uid then (e.1, newpr) else e).1 == uid) = (e.1 == uid)
    by_cases he : (e.1 == uid) = true
    · rw [if_pos he]
    · rw [if_neg he]
  rw [List.find?_map, hcomp]
  cases hfind : db.user_preferences.find? (fun e => e.1 == uid) with
  | none => rw [hfind] at hpr; simp at hpr
  | some e0 =>
    have hk := List.find?_some hfind
    simp only at hk
    have hkeq : e0.1 = uid := by simpa using hk
    simp [hkeq]

/-- C6: for a user whose preferences document exists (and a working store),
a `save` or `like` event adds 1 to the interest weight of every (distinct)
tag of the snapshot and 1 to the skill weight of every requirement; a
`click_through` event adds 0.5 to every tag's interest weight and leaves
the stored skills untouched; and the updates are additive and
non-idempotent: the same `like` applied twice adds 2, so a previously
unseen tag ends at weight 2, not 1. -/
theorem C6_engagement_learning (db : DB) (now now2 : ℚ) (userId : String)
    (tags reqs : List String) (pr : UserPreferences)
    (hpr : prefsOf db userId = some pr)
    (hqf : db.prefsFail = false) (huf : db.updateFail = false)
    (hnt : tags.Nodup) (hnr : reqs.Nodup) :
    (∀ et, (et = "save" ∨ et = "like") →
      (∀ t ∈ tags,
        interestWeightIn (updatePreferencesFromEngagement db now userId et
          { tags := some tags, requirements := some reqs }) userId t =
        interestWeightIn db userId t + 1) ∧
      (∀ r ∈ reqs,
        skillWeightIn (updatePreferencesFromEngagement db now userId et
          { tags := some tags, requirements := some reqs }) userId r =
        skillWeightIn db userId r + 1)) ∧
    ((∀ t ∈ tags,
        interestWeightIn (updatePreferencesFromEngagement db now userId
          "click_through" { tags := some tags, requirements := some reqs })
          userId t =
        interestWeightIn db userId t + 0.5) ∧
      (prefsOf (updatePreferencesFromEngagement db now userId "click_through"
          { tags := some tags, requirements := some reqs }) userId).bind
        (·.skills) = pr.skills) ∧
    (∀ t ∈ tags,
      interestWeightIn
        (updatePreferencesFromEngagement
          (updatePreferencesFromEngagement db now userId "like"
            { tags := some tags, requirements := some reqs }) now2 userId "like"
          { tags := some tags, requirements := some reqs }) userId t =
      interestWeightIn db userId t + 2) ∧
    (∀ t ∈ tags, interestWeightIn db userId t = 0 →
      interestWeightIn
        (updatePreferencesFromEngagement
          (updatePreferencesFromEngagement db now userId "like"
            { tags := some tags, requirements := some reqs }) now2 userId "like"
          { tags := some tags, requirements := some reqs }) userId t = 2) := by
  have hdouble : ∀ t ∈ tags,
      interestWeightIn
        (updatePreferencesFromEngagement
          (updatePreferencesFromEngagement db now userId "like"
            { tags := some tags, requirements := some reqs }) now2 userId "like"
          { tags := some tags, requirements := some reqs }) userId t =
      interestWeightIn db userId t + 2 := by
    intro t ht
    have hchar1 := updatePrefs_save_like now
      { tags := some tags, requirements := some reqs }
      hpr hqf huf (Or.inr rfl)
    have hpr1 : prefsOf (updatePreferencesFromEngagement db now userId "like"
        { tags := some tags, requirements := some reqs }) userId = some
        { pr with
          interests := some (bumpAll (pr.interests.getD []) tags 1)
          skills := some (bumpAll (pr.skills.getD []) reqs 1)
          updated_at := some now } := by
      rw [hchar1]
      exact prefsOf_after_update hpr
    have hqf1 : (updatePreferencesFromEngagement db now userId "like"
        { tags := some tags, requirements := some reqs }).prefsFail = false := by
      rw [hchar1]
      exact hqf
    have huf1 : (updatePreferencesFromEngagement db now userId "like"
        { tags := some tags, requirements := some reqs }).updateFail = false := by
      rw [hchar1]
      exact huf
    have hchar2 := updatePrefs_save_like now2
      { tags := some tags, requirements := some reqs }
      hpr1 hqf1 huf1 (Or.inr rfl)
    rw [hchar2]
    unfold interestWeightIn
    rw [prefsOf_after_update hpr1, hpr]
    simp only [Option.bind, Option.getD]
    rw [getWeight_bumpAll_mem 1 tags _ t hnt ht,
      getWeight_bumpAll_mem 1 tags _ t hnt ht]
    ring
  refine ⟨?_, ⟨?_, ?_⟩, hdouble, ?_⟩
  · intro et het
    have hchar := updatePrefs_save_like now
      { tags := some tags, requirements := some reqs }
      hpr hqf huf het
    constructor
    · intro t ht
      rw [hchar]
      unfold interestWeightIn
      rw [prefsOf_after_update hpr, hpr]
      simp only [Option.bind, Option.getD]
      exact getWeight_bumpAll_mem 1 tags _ t hnt ht
    · intro r hr
      rw [hchar]
      unfold skillWeightIn
      rw [prefsOf_after_update hpr, hpr]
      simp only [Option.bind, Option.getD]
      exact getWeight_bumpAll_mem 1 reqs _ r hnr hr
  · intro t ht
    have hchar := updatePrefs_click now
      { tags := some tags, requirements := some reqs }
      hpr hqf huf
    rw [hchar]
    unfold interestWeightIn
    rw [prefsOf_after_update hpr, hpr]
    simp only [Option.bind, Option.getD]
    exact getWeight_bumpAll_mem 0.5 tags _ t hnt ht
  · have hchar := updatePrefs_click now
      { tags := some tags, requirements := some reqs }
      hpr hqf huf
    rw [hchar, prefsOf_after_update hpr]
    rfl
  · intro t ht h0
    rw [hdouble t ht, h0]
    norm_num

/-- Witness for `C6_engagement_learning` on `learnDB`. -/
theorem C6_engagement_learning_witness :
    interestWeightIn (updatePreferencesFromEngagement learnDB 99 "u" "like"
      { tags := some ["x", "y"], requirements := some ["r"] }) "u" "x" =
      interestWeightIn learnDB "u" "x" + 1 ∧
    skillWeightIn (updatePreferencesFromEngagement learnDB 99 "u" "like"
      { tags := some ["x", "y"], requirements := some ["r"] }) "u" "r" =
      skillWeightIn learnDB "u" "r" + 1 ∧
    interestWeightIn (updatePreferencesFromEngagement learnDB 99 "u"
      "click_through" { tags := some ["x", "y"], requirements := some ["r"] })
      "u" "x" = interestWeightIn learnDB "u" "x" + 0.5 ∧
    interestWeightIn
      (updatePreferencesFromEngagement
        (updatePreferencesFromEngagement learnDB 99 "u" "like"
          { tags := some ["x", "y"], requirements := some ["r"] }) 100 "u" "like"
        { tags := some ["x", "y"], requirements := some ["r"] }) "u" "y" = 2 := by
  have h := C6_engagement_learning learnDB 99 100 "u" ["x", "y"] ["r"]
    { interests := some [("x", 2)], skills := some [] } rfl rfl rfl
    (by decide) (by decide)
  have h0 : interestWeightIn learnDB "u" "y" = 0 := rfl
  exact ⟨(h.1 "like" (Or.inr rfl)).1 "x" (by decide),
    (h.1 "like" (Or.inr rfl)).2 "r" (by decide),
    h.2.1.1 "x" (by decide),
    h.2.2.2 "y" (by decide) h0⟩

/-- C7: no engine operation propagates an error to its caller — a failing
content, profile or preference query makes `getRecommendations` return `[]`
instead of raising; `updatePreferencesFromEngagement` never raises: a store
failure is swallowed (stored state unchanged), and an absent preferences
document makes it a silent no-op. -/
theorem C7_error_swallowing (db : DB) (now : ℚ) (rands : ℕ → ℚ)
    (userId contentType etype : String) (limit : ℕ) (snap : ItemSnapshot) :
    (db.contentFail = true →
      getRecommendations db now rands userId contentType limit = []) ∧
    (db.profilesFail = true →
      getRecommendations db now rands userId contentType limit = []) ∧
    (db.prefsFail = true →
      getRecommendations db now rands userId contentType limit = []) ∧
    (prefsOf db userId = none →
      updatePreferencesFromEngagement db now userId etype snap = db) ∧
    (db.prefsFail = true →
      updatePreferencesFromEngagement db now userId etype snap = db) ∧
    (db.updateFail = true →
      updatePreferencesFromEngagement db now userId etype snap = db) := by
  refine ⟨?_, ?_, ?_, ?_, ?_, ?_⟩
  · intro hcf
    unfold getRecommendations
    cases hE : getRecommendationsE db now rands userId contentType limit with
    | error e => rfl
    | ok l =>
      obtain ⟨op, oq, hp, hq, hcase⟩ := getRecommendationsE_inv hE
      have hga : getActiveContent db contentType = .error () := by
        simp [getActiveContent, hcf]
      rcases hcase with ⟨-, -, hcold⟩ | ⟨-, c, sc, hc, -, -⟩
      · obtain ⟨c, hc, -⟩ := getColdStart_inv hcold
        rw [hga] at hc
        exact Except.noConfusion hc
      · rw [hga] at hc
        exact Except.noConfusion hc
  · intro hpf
    have hfp : findProfile db userId = .error () := by simp [findProfile, hpf]
    simp only [getRecommendations, getRecommendationsE, hfp, Bind.bind, Except.bind]
  · intro hqf
    have hfq : findPreferences db userId = .error () := by
      simp [findPreferences, hqf]
    unfold getRecommendations getRecommendationsE
    cases hp : findProfile db userId with
    | error e => simp [Bind.bind, Except.bind]
    | ok op => simp [Bind.bind, Except.bind, hfq]
  · intro hnone
    by_cases hqf2 : db.prefsFail = true
    · simp [updatePreferencesFromEngagement, updatePreferencesE, findPreferences,
        hqf2, Bind.bind, Except.bind]
    · simp [updatePreferencesFromEngagement, updatePreferencesE, findPreferences,
        hqf2, hnone, Bind.bind, Except.bind, Pure.pure, Except.pure]
  · intro hqf
    simp [updatePreferencesFromEngagement, updatePreferencesE, findPreferences,
      hqf, Bind.bind, Except.bind]
  · intro huf
    by_cases hqf2 : db.prefsFail = true
    · simp [updatePreferencesFromEngagement, updatePreferencesE, findPreferences,
        hqf2, Bind.bind, Except.bind]
    · unfold updatePreferencesFromEngagement updatePreferencesE findPreferences
        updateOnePrefs
      cases hpo : prefsOf db userId with
      | none => simp [hqf2, Bind.bind, Except.bind, Pure.pure, Except.pure]
      | some pr =>
        by_cases hc1 : (etype == "save" || etype == "like") = true
        · simp [hqf2, hc1, huf, Bind.bind, Except.bind]
        · by_cases hc2 : (etype == "click_through") = true
          · simp [hqf2, hc1, hc2, huf, Bind.bind, Except.bind]
          · simp [hqf2, hc1, hc2, Bind.bind, Except.bind, Pure.pure, Except.pure]

/-- Witness for `C7_error_swallowing` on concrete failing stores. -/
theorem C7_error_swallowing_witness :
    getRecommendations contentFailDB 0 (fun _ => 0) "u" "all" 20 = [] ∧
    getRecommendations profilesFailDB 0 (fun _ => 0) "u" "all" 20 = [] ∧
    getRecommendations prefsFailDB 0 (fun _ => 0) "u" "all" 20 = [] ∧
    updatePreferencesFromEngagement emptyDB 0 "u" "like"
      { tags := some ["x"] } = emptyDB ∧
    updatePreferencesFromEngagement prefsFailDB 0 "u" "like"
      { tags := some ["x"] } = prefsFailDB ∧
    updatePreferencesFromEngagement updateFailDB 0 "u" "like"
      { tags := some ["x"] } = updateFailDB := by
  refine ⟨(C7_error_swallowing contentFailDB 0 (fun _ => 0) "u" "all" "like" 20
      { tags := some ["x"] }).1 rfl,
    (C7_error_swallowing profilesFailDB 0 (fun _ => 0) "u" "all" "like" 20
      { tags := some ["x"] }).2.1 rfl,
    (C7_error_swallowing prefsFailDB 0 (fun _ => 0) "u" "all" "like" 20
      { tags := some ["x"] }).2.2.1 rfl,
    (C7_error_swallowing emptyDB 0 (fun _ => 0) "u" "all" "like" 20
      { tags := some ["x"] }).2.2.2.1 rfl,
    (C7_error_swallowing prefsFailDB 0 (fun _ => 0) "u" "all" "like" 20
      { tags := some ["x"] }).2.2.2.2.1 rfl,
    (C7_error_swallowing updateFailDB 0 (fun _ => 0) "u" "all" "like" 20
      { tags := some ["x"] }).2.2.2.2.2 rfl⟩

/-- C8: the location sub-score is decided by strict precedence, first
applicable rule winning: no user location data → 50; item location contains
"remote"/"virtual"/"online" → 100; city contained → 100; province → 80;
country → 60; otherwise 20. -/
theorem C8_location_precedence (item : Item) (p : Option UserProfile)
    (q : Option UserPreferences) :
    (truthyStr (locationSource p q).country = false →
     truthyStr (locationSource p q).province = false →
     truthyStr (locationSource p q).city = false →
     calculateLocationMatch item p q = 50) ∧
    ((truthyStr (locationSource p q).country ||
      truthyStr (locationSource p q).province ||
      truthyStr (locationSource p q).city) = true →
     (jsIncludes (lowerChars (item.location.getD "")) "remote".data ||
      jsIncludes (lowerChars (item.location.getD "")) "virtual".data ||
      jsIncludes (lowerChars (item.location.getD "")) "online".data) = true →
     calculateLocationMatch item p q = 100) ∧
    ((truthyStr (locationSource p q).country ||
      truthyStr (locationSource p q).province ||
      truthyStr (locationSource p q).city) = true →
     (jsIncludes (lowerChars (item.location.getD "")) "remote".data ||
      jsIncludes (lowerChars (item.location.getD "")) "virtual".data ||
      jsIncludes (lowerChars (item.location.getD "")) "online".data) = false →
     (truthyStr (locationSource p q).city &&
      jsIncludes (lowerChars (item.location.getD ""))
        (lowerChars ((locationSource p q).city.getD ""))) = true →
     calculateLocationMatch item p q = 100) ∧
    ((truthyStr (locationSource p q).country ||
      truthyStr (locationSource p q).province ||
      truthyStr (locationSource p q).city) = true →
     (jsIncludes (lowerChars (item.location.getD "")) "remote".data ||
      jsIncludes (lowerChars (item.location.getD "")) "virtual".data ||
      jsIncludes (lowerChars (item.location.getD "")) "online".data) = false →
     (truthyStr (locationSource p q).city &&
      jsIncludes (lowerChars (item.location.getD ""))
        (lowerChars ((locationSource p q).city.getD ""))) = false →
     (truthyStr (locationSource p q).province &&
      jsIncludes (lowerChars (item.location.getD ""))
        (lowerChars ((locationSource p q).province.getD ""))) = true →
     calculateLocationMatch item p q = 80) ∧
    ((truthyStr (locationSource p q).country ||
      truthyStr (locationSource p q).province ||
      truthyStr (locationSource p q).city) = true →
     (jsIncludes (lowerChars (item.location.getD "")) "remote".data ||
      jsIncludes (lowerChars (item.location.getD "")) "virtual".data ||
      jsIncludes (lowerChars (item.location.getD "")) "online".data) = false →
     (truthyStr (locationSource p q).city &&
      jsIncludes (lowerChars (item.location.getD ""))
        (lowerChars ((locationSource p q).city.getD ""))) = false →
     (truthyStr (locationSource p q).province &&
      jsIncludes (lowerChars (item.location.getD ""))
        (lowerChars ((locationSource p q).province.getD ""))) = false →
     (truthyStr (locationSource p q).country &&
      jsIncludes (lowerChars (item.location.getD ""))
        (lowerChars ((locationSource p q).country.getD ""))) = true →
     calculateLocationMatch item p q = 60) ∧
    ((truthyStr (locationSource p q).country ||
      truthyStr (locationSource p q).province ||
      truthyStr (locationSource p q).city) = true →
     (jsIncludes (lowerChars (item.location.getD "")) "remote".data ||
      jsIncludes (lowerChars (item.location.getD "")) "virtual".data ||
      jsIncludes (lowerChars (item.location.getD "")) "online".data) = false →
     (truthyStr (locationSource p q).city &&
      jsIncludes (lowerChars (item.location.getD ""))
        (lowerChars ((locationSource p q).city.getD ""))) = false →
     (truthyStr (locationSource p q).province &&
      jsIncludes (lowerChars (item.location.getD ""))
        (lowerChars ((locationSource p q).province.getD ""))) = false →
     (truthyStr (locationSource p q).country &&
      jsIncludes (lowerChars (item.location.getD ""))
        (lowerChars ((locationSource p q).country.getD ""))) = false →
     calculateLocationMatch item p q = 20) := by
  simp only [calculateLocationMatch]
  split_ifs with h0 h1 h2 h3 h4 <;>
    refine ⟨?_, ?_, ?_, ?_, ?_, ?_⟩ <;> intros <;> simp_all

/-- Witness for `C8_location_precedence`: item location "Remote - Canada"
with user city "Toronto" scores 100 through the remote rule (which fires
before the city rule). -/
theorem C8_location_precedence_witness :
    calculateLocationMatch remoteItem (some torontoProfile) none = 100 :=
  (C8_location_precedence remoteItem (some torontoProfile) none).2.1
    (by decide) (by decide)

/-- C9: the popularity sub-score is
`min(((likes + saves + views) / (1 + ageDays·0.1)) / 10, 100)` with
`ageDays = (now − created_at) / 86400000` ms, and a missing counter counts
as 0. -/
theorem C9_popularity_formula (now : ℚ) (item : Item) :
    calculateDecayedPopularity now item =
      min ((((item.likes_count.getD 0 : ℚ) + (item.saves_count.getD 0 : ℚ) +
        (item.views.getD 0 : ℚ)) /
        (1 + ((now - item.created_at) / 86400000) * 0.1)) / 10) 100 ∧
    calculateDecayedPopularity now { item with likes_count := none } =
      calculateDecayedPopularity now { item with likes_count := some 0 } ∧
    calculateDecayedPopularity now { item with saves_count := none } =
      calculateDecayedPopularity now { item with saves_count := some 0 } ∧
    calculateDecayedPopularity now { item with views := none } =
      calculateDecayedPopularity now { item with views := some 0 } := by
  refine ⟨?_, rfl, rfl, rfl⟩
  norm_num [calculateDecayedPopularity, ageInDays, decayRate]

/-- C10: the recency sub-score is the step function ≤1 → 100, ≤7 → 80,
≤30 → 60, ≤90 → 40, else 20, with boundary values mapping to the higher
bucket (≤ semantics). -/
theorem C10_recency_step (now : ℚ) (item : Item) :
    (ageInDays now item ≤ 1 → calculateRecency now item = 100) ∧
    (1 < ageInDays now item → ageInDays now item ≤ 7 →
      calculateRecency now item = 80) ∧
    (7 < ageInDays now item → ageInDays now item ≤ 30 →
      calculateRecency now item = 60) ∧
    (30 < ageInDays now item → ageInDays now item ≤ 90 →
      calculateRecency now item = 40) ∧
    (90 < ageInDays now item → calculateRecency now item = 20) := by
  simp only [calculateRecency]
  refine ⟨?_, ?_, ?_, ?_, ?_⟩ <;> intros <;> split_ifs <;>
    first
      | rfl
      | linarith

/-- Witness for `C10_recency_step`: an age of exactly 1 day maps to 100,
and exactly 7 days to 80. -/
theorem C10_recency_step_witness :
    calculateRecency 86400000 epochItem = 100 ∧
    calculateRecency (7 * 86400000) epochItem = 80 := by
  constructor
  · exact (C10_recency_step 86400000 epochItem).1
      (by norm_num [ageInDays, epochItem])
  · exact (C10_recency_step (7 * 86400000) epochItem).2.1
      (by norm_num [ageInDays, epochItem]) (by norm_num [ageInDays, epochItem])

end GlowUp
